import Mathlib

/-!
Verification of the educational-content scraper / video generator pipeline.

This file gives a shallow embedding, in Lean 4, of the content-generation
core of the repository (the slug/key deriver, the markdown title extractor,
the file-name generator, the scene parser, the per-item processors, the
fan-in persistence phase, the existing-output listers and the Veo video
extension loop), and proves or refutes the specification claims about them.

Strings are modelled by Lean `String` (Unicode scalar values, as in Python 3
`str`).  The character classes of Python's `re` module (`\w`, `\s`) and
`str.lower()` are Unicode-aware; they are embedded here exactly on the
code-point range 0x00-0xFF (ASCII plus Latin-1), which covers every string
manipulated in this development.  Effectful calls (network, AI generation,
storage) are embedded as explicit outcome parameters (`Except`/`Option`
valued environments), so each processor becomes a total function of its
inputs and of the outcomes of the capability calls it performs.
-/

set_option maxRecDepth 100000

namespace ECS

/-- Python 3 `re` word character `\w` (ASCII alphanumerics, underscore, and
Unicode alphanumerics), embedded exactly for code points up to 0xFF: the
Latin-1 word characters are the letters 0xAA, 0xB5, 0xBA, 0xC0-0xD6,
0xD8-0xF6, 0xF8-0xFF and the numerics 0xB2, 0xB3, 0xB9, 0xBC-0xBE. -/
def isWordCharPy (c : Char) : Bool :=
  c.isAlphanum || c = '_' ||
  c.val = 0xAA || c.val = 0xB5 || c.val = 0xBA ||
  c.val = 0xB2 || c.val = 0xB3 || c.val = 0xB9 ||
  (0xBC ≤ c.val && c.val ≤ 0xBE) ||
  (0xC0 ≤ c.val && c.val ≤ 0xFF && c.val ≠ 0xD7 && c.val ≠ 0xF7)

/-- Python 3 `re` whitespace `\s` (also the default strip set of
`str.strip()`), embedded exactly for code points up to 0xFF. -/
def isSpacePy (c : Char) : Bool :=
  c = ' ' || c = '\t' || c = '\n' || c.val = 0x0B || c.val = 0x0C ||
  c = '\r' || (0x1C ≤ c.val && c.val ≤ 0x1F) || c.val = 0x85 || c.val = 0xA0

/-- Python `str.lower()`, embedded exactly for code points up to 0xFF
(ASCII A-Z and the Latin-1 uppercase letters 0xC0-0xDE except 0xD7 map
down by 0x20; everything else is fixed). -/
def toLowerPy (c : Char) : Char :=
  if 'A' ≤ c && c ≤ 'Z' then Char.ofNat (c.toNat + 0x20)
  else if 0xC0 ≤ c.val && c.val ≤ 0xDE && c.val ≠ 0xD7 then Char.ofNat (c.toNat + 0x20)
  else c

/-- Separator class of `slugify`'s second substitution, `[\s-]`. -/
def isSepPy (c : Char) : Bool := isSpacePy c || c = '-'

/-- Replace every run of `[\s-]` by a single underscore
(`re.sub(r'[\s-]+', '_', s)`). The boolean argument records whether the
previous character belonged to the run being collapsed. -/
def collapseSep : Bool → List Char → List Char
  | _, [] => []
  | prevSep, c :: rest =>
    if isSepPy c then
      if prevSep then collapseSep true rest
      else '_' :: collapseSep true rest
    else c :: collapseSep false rest

/-- Strip the characters selected by `f` from both ends of a character list
(Python `str.strip`). -/
def pyStripChars (f : Char → Bool) (l : List Char) : List Char :=
  ((l.dropWhile f).reverse.dropWhile f).reverse

/-- Python `str.strip()` with no argument, on `String`. -/
def pyStrip (s : String) : String :=
  String.mk (pyStripChars isSpacePy s.data)

/-- `src/utils/text.py` `slugify`: drop characters outside `[\w\s-]`,
collapse runs of `[\s-]` to a single underscore, lowercase, and strip
leading and trailing underscores. -/
def slugify (texto : String) : String :=
  let step1 := texto.data.filter (fun c => isWordCharPy c || isSpacePy c || c = '-')
  let step2 := collapseSep false step1
  let step3 := step2.map toLowerPy
  String.mk (pyStripChars (fun c => c = '_') step3)

/-- Split a character list at newline characters (Python line structure as
seen by `re.MULTILINE` anchors: `^` after each `'\n'`, `$` before each). -/
def splitLinesChar : List Char → List (List Char)
  | [] => [[]]
  | c :: rest =>
    if c = '\n' then [] :: splitLinesChar rest
    else
      match splitLinesChar rest with
      | [] => [[c]]
      | l :: ls => (c :: l) :: ls

/-- `src/utils/text.py` `extrair_titulo_do_markdown`: first line matching
`^# (.+)$` (multiline), returned with the `# ` prefix removed and stripped;
`none` when no line matches. -/
def extrair_titulo_do_markdown (conteudo_md : String) : Option String :=
  let lines := splitLinesChar conteudo_md.data
  match lines.find? (fun l =>
      match l with
      | '#' :: ' ' :: rest => !rest.isEmpty
      | _ => false) with
  | some l => some (String.mk (pyStripChars isSpacePy (l.drop 2)))
  | none => none

/-- `src/utils/text.py` `gerar_nome_arquivo`: semantic name from the title
when the title is truthy (neither `None` nor the empty string), otherwise
the ordinal fallback name. -/
def gerar_nome_arquivo (titulo : Option String) (pref : String) (indice : Nat)
    (extensao : String := ".md") : String :=
  match titulo with
  | some t =>
    if t ≠ "" then pref ++ "_" ++ slugify t ++ extensao
    else pref ++ "_" ++ toString indice ++ extensao
  | none => pref ++ "_" ++ toString indice ++ extensao

/-! ## Scene parser (`src/prompts.py`, `parse_scenes_from_roteiro`)

The two regular expressions of the parser are hand-compiled below with
Python `re` semantics (leftmost scan, ordered alternation, greedy and lazy
quantifiers with backtracking, `re.IGNORECASE`/`re.DOTALL`, and `$` without
`re.MULTILINE` matching at the end of the subject or just before a final
newline). -/

/-- Case-insensitive literal match (`re.IGNORECASE`): consume `pat` from the
front of `s`, returning the rest. -/
def matchCI : List Char → List Char → Option (List Char)
  | [], s => some s
  | _ :: _, [] => none
  | p :: ps, c :: cs => if toLowerPy c = toLowerPy p then matchCI ps cs else none

/-- The header alternation `(?:CENA|Cenário|Cena)` under `IGNORECASE`
(the three branches collapse to case-insensitive `cena` or `cenário`). -/
def matchHeaderWord (s : List Char) : Option (List Char) :=
  match matchCI "cena".data s with
  | some r => some r
  | none => matchCI "cenário".data s

/-- The lookahead alternation `##\s*(?:CENA|Cenário|Cena|INFORMAÇÕES)` that
delimits a scene section. -/
def isSceneBoundary (s : List Char) : Bool :=
  match s with
  | '#' :: '#' :: rest =>
    let r := rest.dropWhile isSpacePy
    (matchHeaderWord r).isSome || (matchCI "informações".data r).isSome
  | _ => false

/-- `$` without `re.MULTILINE`: holds at the end of the subject, or just
before a final newline (on a suffix representation of positions). -/
def dollarHolds (s : List Char) : Bool :=
  match s with
  | [] => true
  | ['\n'] => true
  | _ => false

/-- Match `##\s*(?:CENA|Cenário|Cena)\s*(\d+)[^\n]*\n` at the head of `s`,
returning the digit group and the suffix after the header line. -/
def matchSceneHeaderAt (s : List Char) : Option (List Char × List Char) :=
  match s with
  | '#' :: '#' :: rest =>
    match matchHeaderWord (rest.dropWhile isSpacePy) with
    | none => none
    | some afterWord =>
      let afterSp := afterWord.dropWhile isSpacePy
      let digits := afterSp.takeWhile Char.isDigit
      if digits.isEmpty then none
      else
        match (afterSp.dropWhile Char.isDigit).dropWhile (fun c => c ≠ '\n') with
        | '\n' :: content => some (digits, content)
        | _ => none
  | _ => none

/-- The lazy group `(.*?)` under `DOTALL`, stopped at the first position
where the section lookahead (next scene header or `$`) holds. -/
def takeUntilBoundary : List Char → List Char × List Char
  | [] => ([], [])
  | c :: rest =>
    if isSceneBoundary (c :: rest) || dollarHolds (c :: rest) then ([], c :: rest)
    else
      let p := takeUntilBoundary rest
      (c :: p.1, p.2)

/-- `re.findall` over the scene-section pattern: scan left to right, on a
match emit `(digits, content)` and resume at the match end. The fuel is the
length of the scanned text; every step strictly shortens the suffix. -/
def findScenesAux : Nat → List Char → List (List Char × List Char)
  | 0, _ => []
  | fuel + 1, s =>
    match matchSceneHeaderAt s with
    | some (digits, afterHeader) =>
      let p := takeUntilBoundary afterHeader
      (digits, p.1) :: findScenesAux fuel p.2
    | none =>
      match s with
      | [] => []
      | _ :: rest => findScenesAux fuel rest

/-- One of the four sub-field markers `(?:AUDIO|ÁUDIO|Locução|TRANSIÇÃO)`
under `IGNORECASE`. -/
def matchAltWord (s : List Char) : Bool :=
  (matchCI "audio".data s).isSome || (matchCI "áudio".data s).isSome ||
  (matchCI "locução".data s).isSome || (matchCI "transição".data s).isSome

/-- The visual-description lookahead `(?=\*?\*?(?:AUDIO|ÁUDIO|Locução|TRANSIÇÃO)|$)`. -/
def isVisualStop (s : List Char) : Bool :=
  matchAltWord s ||
  (match s with
   | '*' :: r1 => matchAltWord r1 ||
     (match r1 with
      | '*' :: r2 => matchAltWord r2
      | _ => false)
   | _ => false) ||
  dollarHolds s

/-- Lazy extension of the visual group after its mandatory first character:
stop at the first suffix where the lookahead holds. -/
def lazyUntilStop : List Char → List Char × List Char
  | [] => ([], [])
  | c :: rest =>
    if isVisualStop (c :: rest) then ([], c :: rest)
    else
      let p := lazyUntilStop rest
      (c :: p.1, p.2)

/-- The tail `[:\*]*\s*(.+?)(?=...)` of the visual pattern, after the
`VISUAL`/`Descrição visual` literal. When the greedy munch swallows the
whole rest of the section, the engine backtracks it by one character so
that `(.+?)` can take that character (with `$` then holding). -/
def captureAfterMarker (s0 : List Char) : Option (List Char) :=
  let s1 := s0.dropWhile (fun c => c = ':' || c = '*')
  let s2 := s1.dropWhile isSpacePy
  match s2 with
  | c :: rest => some (c :: (lazyUntilStop rest).1)
  | [] =>
    match s0.getLast? with
    | some c => some [c]
    | none => none

/-- Strip the up-to-two optional leading asterisks `\*?\*?`. Since the
following literal begins with a letter, consuming as many leading `*` as are
present (at most two) is the unique way the alternation can proceed. -/
def stripStars2 (s : List Char) : List Char :=
  match s with
  | '*' :: '*' :: r => r
  | '*' :: r => r
  | r => r

/-- The literal alternation `(?:VISUAL|Descrição visual)` under `IGNORECASE`. -/
def matchVisualWord (s : List Char) : Option (List Char) :=
  match matchCI "visual".data s with
  | some r => some r
  | none => matchCI "descrição visual".data s

/-- Try the whole visual pattern anchored at the head of `s`, returning the
captured group. -/
def matchVisualAt (s : List Char) : Option (List Char) :=
  match matchVisualWord (stripStars2 s) with
  | some afterWord => captureAfterMarker afterWord
  | none => none

/-- `re.search` of the visual pattern: leftmost position at which the
anchored match succeeds. -/
def searchVisual : List Char → Option (List Char)
  | [] => none
  | c :: rest =>
    match matchVisualAt (c :: rest) with
    | some g => some g
    | none => searchVisual rest

/-- Post-processing of a captured visual description: `strip()`, removal of
`[` and `]`, removal of runs of `*`, `strip()` again. -/
def cleanVisual (g : List Char) : List Char :=
  let d1 := pyStripChars isSpacePy g
  let d2 := d1.filter (fun c => c ≠ '[' && c ≠ ']')
  let d3 := d2.filter (fun c => c ≠ '*')
  pyStripChars isSpacePy d3

/-- `src/prompts.py` `parse_scenes_from_roteiro`: extract
`Cena {n}: {visual}` prompts from each recognized scene section; sections
without a non-empty visual description are dropped; when nothing is
extracted, fall back to a single prompt holding the first 1000 characters
of the script. -/
def parse_scenes_from_roteiro (roteiro : String) : List String :=
  let raw := findScenesAux roteiro.data.length roteiro.data
  let scenes := raw.filterMap (fun p =>
    match searchVisual p.2 with
    | none => none
    | some g =>
      let v := cleanVisual g
      if v.isEmpty then none
      else some ("Cena " ++ String.mk p.1 ++ ": " ++ String.mk v))
  if scenes.isEmpty then [String.mk (roteiro.data.take 1000)] else scenes

/-- The concrete scenario script of the specification: headers `Scene 1`,
`Scene 2`, `Cena 3` with the three visual-description sub-fields. -/
def c2Script : String :=
  "## Scene 1\n**VISUAL:** A red door opens\n**AUDIO:** Narracao um\n" ++
  "## Scene 2\n**VISUAL:** A hand presses a button\n**AUDIO:** Narracao dois\n" ++
  "## Cena 3\n**VISUAL:** Sunrise over a city\n**AUDIO:** Narracao tres\n"

example :
    parse_scenes_from_roteiro c2Script = ["Cena 3: Sunrise over a city"] := by decide

example :
    parse_scenes_from_roteiro
      "## CENA 1 (0-8 segundos)\n**VISUAL:** [Uma porta]\n**AUDIO:** [Oi]\n## CENA 2 (8-16)\n**VISUAL:** Um botão\n**AUDIO:** x\n"
      = ["Cena 1: Uma porta", "Cena 2: Um botão"] := by decide

example : parse_scenes_from_roteiro "texto livre" = ["texto livre"] := by decide

example :
    parse_scenes_from_roteiro "## Cena 1\nVISUAL:\n## Cena 2\n**VISUAL:** ok\n**AUDIO:** a\n"
      = ["Cena 2: ok"] := by decide

example :
    parse_scenes_from_roteiro "## cenário 2\n**Descrição visual**: algo [aqui]\nLocução: fala\n"
      = ["Cena 2: algo aqui"] := by decide

/-! ## Per-item processors

Capability calls (content load, text generation, image generation, video
generation, storage) are embedded as explicit outcome environments: an
`Except String α` models a Python call that either returns a value or
raises an exception carrying the message `str(e)`. Each processor is then
a total Lean function — which is exactly the "never raises past its own
boundary" shape of the source. -/

/-- The apostrophe character (`chr 39`), one of the two quote characters
stripped by `strip('"\x27')` in the generators. -/
def quoteChar : Char := Char.ofNat 39

/-- Strip double and single quotes from both ends (`.strip('"\x27')`). -/
def pyStripQuotes (s : String) : String :=
  String.mk (pyStripChars (fun c => c = '"' || c = quoteChar) s.data)

/-- Python `str.replace` on character lists: scan left to right, replacing
each non-overlapping occurrence of `patt` and resuming after it. The fuel
is the subject's length; when `patt` is non-empty every step consumes at
least one character. -/
def replaceAll (patt repl : List Char) : Nat → List Char → List Char
  | 0, s => s
  | fuel + 1, s =>
    if patt.isPrefixOf s then repl ++ replaceAll patt repl fuel (s.drop patt.length)
    else
      match s with
      | [] => []
      | c :: rest => c :: replaceAll patt repl fuel rest

/-- Python `str.replace` on `String`. -/
def pyReplace (s patt repl : String) : String :=
  String.mk (replaceAll patt.data repl.data s.data.length s.data)

/-- Python `str.endswith` on `String`. -/
def pyEndsWith (s suffix : String) : Bool :=
  suffix.data.isSuffixOf s.data

/-- Truthiness of the optional extracted title, as tested by `if titulo:`
in the source (`None` and the empty string are falsy). -/
def truthyTitle (conteudo : String) : Option String :=
  match extrair_titulo_do_markdown conteudo with
  | some t => if t = "" then none else some t
  | none => none

/-- `call_to_action` dictionary of a pill (`{"type": ..., "text": ...}`). -/
structure CallToAction where
  type : String
  text : String
deriving Repr, DecidableEq

/-- `src/pill/generator.py` `PillResult`. The `call_to_action` field is
`none` for the empty dictionary `{}` of the failure path. Image bytes are
modelled as `List Nat`. -/
structure PillResult where
  arquivo_origem : String
  pill_id : String
  title : String
  short_text : String
  call_to_action : Option CallToAction
  infographic_filename : String
  infographic_bytes : Option (List Nat)
  success : Bool
  error : Option String := none
deriving Repr, DecidableEq

/-- Outcome of `_get_imagen_client()`: success, a `ValueError` (caught
inside `gerar_infografico`), or any other exception (which propagates out
of `gerar_infografico`). -/
inductive ImgClientOutcome where
  | ok
  | valueErr (msg : String)
  | otherErr (msg : String)
deriving Repr, DecidableEq

/-- Outcome of the `generate_images` API call and response decoding. -/
inductive ImgGenOutcome where
  | ok (bytes : List Nat)
  | apiRaise (msg : String)
  | noImages
  | noByteField
deriving Repr, DecidableEq

/-- Environment of one `processar_insight_para_pilula` execution: the
outcome of each capability call it performs, in program order. `load`
covers both content-loading modes (the local `open` raising, and the MinIO
path raising on empty content). -/
structure PillEnv where
  load : Except String String
  titleGen : Except String String
  shortGen : Except String String
  ctaGen : Except String String
  imgClient : ImgClientOutcome
  imgGen : ImgGenOutcome

/-- `gerar_titulo_pilula`: generated title stripped of whitespace and
quotes; on any exception, falls back internally to the first markdown H1
or to the constant `"Dica de Seguranca"` — it never raises. -/
def gerar_titulo_pilula (conteudo : String) (env : PillEnv) : String :=
  match env.titleGen with
  | .ok t => pyStripQuotes (pyStrip t)
  | .error _ =>
    match extrair_titulo_do_markdown conteudo with
    | some t => if t = "" then "Dica de Seguranca" else t
    | none => "Dica de Seguranca"

/-- `gerar_texto_curto`: stripped generator output; propagates exceptions. -/
def gerar_texto_curto (env : PillEnv) : Except String String :=
  env.shortGen.map pyStrip

/-- `gerar_call_to_action`: question CTA from the stripped, unquoted
generator output; propagates exceptions. -/
def gerar_call_to_action (env : PillEnv) : Except String CallToAction :=
  env.ctaGen.map (fun q => ⟨"question", pyStripQuotes (pyStrip q)⟩)

/-- `src/clients/imagen.py` `gerar_infografico`: returns `none` when the
client raises `ValueError`, when the API call raises, when no image is
produced, or when no byte field can be extracted; returns the bytes on
success. A non-`ValueError` exception from client creation propagates. -/
def gerar_infografico (env : PillEnv) : Except String (Option (List Nat)) :=
  match env.imgClient with
  | .valueErr _ => .ok none
  | .otherErr e => .error e
  | .ok =>
    match env.imgGen with
    | .apiRaise _ => .ok none
    | .noImages => .ok none
    | .noByteField => .ok none
    | .ok b => .ok (some b)

/-- The `try` body of `processar_insight_para_pilula`: load, then the four
generation sub-steps in program order, then naming and result assembly. -/
def pillBody (arquivo : String) (env : PillEnv) : Except String PillResult := do
  let conteudo ← env.load
  let titulo := gerar_titulo_pilula conteudo env
  let short ← gerar_texto_curto env
  let cta ← gerar_call_to_action env
  let infBytes ← gerar_infografico env
  let pid := "pilula_" ++ slugify titulo
  pure {
    arquivo_origem := arquivo
    pill_id := pid
    title := titulo
    short_text := short
    call_to_action := some cta
    infographic_filename := pid ++ ".png"
    infographic_bytes := infBytes
    success := true
  }

/-- `processar_insight_para_pilula`: catches every exception at its
boundary and returns a failed `PillResult` carrying the message. -/
def processar_insight_para_pilula (arquivo : String) (env : PillEnv) : PillResult :=
  match pillBody arquivo env with
  | .ok r => r
  | .error e =>
    { arquivo_origem := arquivo, pill_id := "", title := "", short_text := ""
      call_to_action := none, infographic_filename := "", infographic_bytes := none
      success := false, error := some e }

/-- `src/video/generator.py` `RoteiroResult`. -/
structure RoteiroResult where
  arquivo_origem : String
  roteiro : String
  nome_roteiro : String
  success : Bool
  error : Option String := none
deriving Repr, DecidableEq

/-- Environment of one `processar_insight` (script variant) execution. -/
structure RoteiroEnv where
  load : Except String String
  gen : Except String String

/-- The name under which `processar_insight` saves a generated script
(lines 74-80): slug of the truthy title, otherwise the raw file name with
every `.md` occurrence removed — note: without `slugify`. -/
def nomeRoteiroSalvo (arquivo conteudo : String) : String :=
  match truthyTitle conteudo with
  | some t => "roteiro_" ++ slugify t ++ ".md"
  | none => "roteiro_" ++ pyReplace arquivo ".md" "" ++ ".md"

/-- The expected script key computed by the backlog filter of
`gerar_roteiros` (lines 321-326): slug of the truthy title, otherwise the
slug of the file name with `.md` removed — note: with `slugify`. -/
def roteiroEsperado (arquivo conteudo : String) : String :=
  match truthyTitle conteudo with
  | some t => "roteiro_" ++ slugify t ++ ".md"
  | none => "roteiro_" ++ slugify (pyReplace arquivo ".md" "") ++ ".md"

/-- The expected pill key computed by the backlog filter of
`gerar_pilulas` (lines 509-514): slug of the insight's truthy H1 title,
otherwise the slug of the file name with `.md` removed. -/
def pilulaEsperada (arquivo conteudo : String) : String :=
  match truthyTitle conteudo with
  | some t => "pilula_" ++ slugify t ++ ".json"
  | none => "pilula_" ++ slugify (pyReplace arquivo ".md" "") ++ ".json"

/-- The object key under which `salvar_pilula` persists a successful pill
(line 368): `{pill_id}.json`, where `pill_id` was derived by
`processar_insight_para_pilula` from the slug of the *generated* pill
title — not from the insight's H1 title. -/
def nomePilulaSalva (resultado : PillResult) : String :=
  resultado.pill_id ++ ".json"

/-- `processar_insight`: load the insight, generate the script, derive the
output name; catches every exception and returns a failed result. -/
def processar_insight (arquivo : String) (env : RoteiroEnv) : RoteiroResult :=
  match (do
      let conteudo ← env.load
      let rot ← env.gen
      pure (conteudo, rot) : Except String (String × String)) with
  | .ok p => ⟨arquivo, p.2, nomeRoteiroSalvo arquivo p.1, true, none⟩
  | .error e => ⟨arquivo, "", "", false, some e⟩

/-- `src/scraper/processor.py` `ProcessingResult`. -/
structure ProcessingResult where
  url : String
  indice : Nat
  markdown : String
  titulo : Option String
  nome_arquivo : String
  success : Bool
  error : Option String := none
deriving Repr, DecidableEq

/-- Environment of one `processar_url` execution. `extract` is the return
value of `extrair_texto_site`, which catches internally and returns an
error text instead of raising. -/
structure UrlEnv where
  extract : String
  gen : Except String String

/-- `processar_url`: extract, generate the insight, derive title and file
name; catches every exception and returns a failed result with the
ordinal fallback name. -/
def processar_url (url : String) (indice : Nat) (env : UrlEnv) : ProcessingResult :=
  match env.gen with
  | .ok markdown =>
    let titulo := extrair_titulo_do_markdown markdown
    ⟨url, indice, markdown, titulo, gerar_nome_arquivo titulo "topico" indice, true, none⟩
  | .error e => ⟨url, indice, "", none, "topico_" ++ toString indice ++ ".md", false, some e⟩

/-! ## Fan-in persistence phase of `gerar_pilulas` -/

/-- Environment of the persistence phase: selected storage mode and the
outcome of the pill-JSON upload per object key. -/
structure SaveEnv where
  saveOnMinio : Bool
  uploadJson : String → Bool

/-- `salvar_pilula`: a failed result is skipped (returns `False`); a
successful one is persisted — on MinIO the returned flag is the JSON
upload's outcome (the infographic upload never affects it), locally the
write returns `True`. -/
def salvar_pilula (resultado : PillResult) (env : SaveEnv) : Bool :=
  if !resultado.success then false
  else if env.saveOnMinio then env.uploadJson (resultado.pill_id ++ ".json")
  else true

/-- The sequential persistence loop of `gerar_pilulas` (lines 564-566):
`salvar_pilula` is attempted on every collected result, in order. -/
def savePhase (resultados : List PillResult) (env : SaveEnv) :
    List (PillResult × Bool) :=
  resultados.map (fun r => (r, salvar_pilula r env))

/-- The names accumulated in `pilulas_geradas`, whose length the run-end
summary reports as the success count. -/
def pilulas_geradas (resultados : List PillResult) (env : SaveEnv) : List String :=
  (savePhase resultados env).filterMap
    (fun p => if p.2 then some (p.1.pill_id ++ ".json") else none)

/-! ## Existing-output listers -/

/-- Outcome of the store's `list_objects_v2` call. -/
inductive ListOutcome where
  | ok (keys : List String)
  | noSuchBucket
  | otherErr (msg : String)
deriving Repr, DecidableEq

/-- `listar_pilulas_existentes` (MinIO mode): returns the set of `.json`
keys together with the error messages it logs. A `NoSuchBucket` error is
explicitly recognized and silently treated as "no pills exist"; any other
failure is re-raised into the generic handler, logged, and degrades to the
empty set. Total: every outcome yields a value. -/
def listar_pilulas_existentes (o : ListOutcome) : List String × List String :=
  match o with
  | .ok ks => (ks.filter (fun k => pyEndsWith k ".json"), [])
  | .noSuchBucket => ([], [])
  | .otherErr e => ([], ["Error listing existing pills from MinIO: " ++ e])

/-- `listar_roteiros_existentes` (MinIO mode): returns the set of `.md`
keys together with the error messages it logs. There is no `NoSuchBucket`
branch: a missing bucket raises into the same generic handler as any other
failure, is logged, and degrades to the empty set. Total. -/
def listar_roteiros_existentes (o : ListOutcome) : List String × List String :=
  match o with
  | .ok ks => (ks.filter (fun k => pyEndsWith k ".md"), [])
  | .noSuchBucket => ([], ["Erro ao listar roteiros existentes no MinIO: NoSuchBucket"])
  | .otherErr e => ([], ["Erro ao listar roteiros existentes no MinIO: " ++ e])

/-! ## Video extension loop (`src/clients/veo.py`, `gerar_video_veo`)

Requests to `generate_videos` are numbered in submission order: request 0
is the initial generation, request `j ≥ 1` the `j`-th extension. The clip
produced by a successful request is identified with the request's index,
so "the clip retained" is the index of the request that produced it. -/

/-- The configuration fields consulted by `gerar_video_veo`. -/
structure VeoConfig where
  useVertexAi : Bool
  vertexGcsBucket : String
  veoExtensions : Nat

/-- Outcome of one video-generation request (submission plus
`_poll_operation`): `success` — the polled operation ends with a video;
`opError` — `_poll_operation` returns `None` (operation error, empty
response or no generated video), handled by the code (early return for the
initial request, `break` inside the extension loop); `raised` — the
request (or the pre-extension `files.download`) raises, which escapes to
the outer `except` and discards everything. -/
inductive ReqOutcome where
  | success
  | opError
  | raised (msg : String)
deriving Repr, DecidableEq

/-- Environment of one `gerar_video_veo` execution: whether client
creation succeeds, the outcome of each submitted request in submission
order, and the outcome of downloading a given clip. -/
structure VeoEnv where
  clientOk : Bool
  gen : Nat → ReqOutcome
  download : Nat → Option (List Nat)

/-- Terminal state of the extension chain. -/
inductive VeoState where
  | doneState
  | failedState
deriving Repr, DecidableEq

/-- Instrumented outcome of `gerar_video_veo`: how many extension requests
were submitted, the terminal state, which clip (by producing request) was
passed to the final download, and the downloaded bytes. -/
structure VeoOutcome where
  extRequests : Nat
  state : VeoState
  downloadedClip : Option Nat
  result : Option (List Nat)
deriving Repr, DecidableEq

/-- How the extension loop ends: all steps performed, a `break` on an
operation error (partial clip kept), or a raised exception escaping to the
outer `except` (everything discarded). -/
inductive LoopExit where
  | finished
  | broke
  | escaped (msg : String)
deriving Repr, DecidableEq

/-- The sequential extension loop: with `remaining` steps left, `i`
extensions already completed, and current clip `current`, submit request
`i + 1`; on success continue with the new clip, on an operation error
break keeping `current`, on a raised exception escape. Returns (requests
submitted, retained clip, exit mode). -/
def veoExtLoop (gen : Nat → ReqOutcome) : Nat → Nat → Nat → Nat × Nat × LoopExit
  | 0, _, current => (0, current, .finished)
  | r + 1, i, current =>
    match gen (i + 1) with
    | .success =>
      let p := veoExtLoop gen r (i + 1) (i + 1)
      (p.1 + 1, p.2.1, p.2.2)
    | .opError => (1, current, .broke)
    | .raised m => (1, current, .escaped m)

/-- `gerar_video_veo`: client creation, the Vertex-AI mode adjustments
(extensions forced to 0; missing GCS bucket aborts), scene bookkeeping,
initial generation, the extension loop, and the final download of the last
retained clip. A raised exception anywhere inside the `try` returns
`None` with nothing downloaded. -/
def gerar_video_veo (cfg : VeoConfig) (scenes : List String) (env : VeoEnv) :
    VeoOutcome :=
  if !env.clientOk then ⟨0, .failedState, none, none⟩
  else
    let exts := if cfg.useVertexAi && cfg.veoExtensions > 0 then 0 else cfg.veoExtensions
    if cfg.useVertexAi && cfg.vertexGcsBucket = "" then ⟨0, .failedState, none, none⟩
    else
      let extensionPrompts := if scenes.length > 1 then scenes.drop 1 else []
      let actual := if !extensionPrompts.isEmpty then min exts extensionPrompts.length else exts
      match env.gen 0 with
      | .raised _ => ⟨0, .failedState, none, none⟩
      | .opError => ⟨0, .failedState, none, none⟩
      | .success =>
        let p := veoExtLoop env.gen actual 0 0
        match p.2.2 with
        | .escaped _ => ⟨p.1, .failedState, none, none⟩
        | .broke => ⟨p.1, .failedState, some p.2.1, env.download p.2.1⟩
        | .finished => ⟨p.1, .doneState, some p.2.1, env.download p.2.1⟩

example : slugify "Proteção contra Golpes" = "proteção_contra_golpes" := by decide
example : slugify "" = "" := by decide
example : slugify "My-File" = "my_file" := by decide
example : slugify "!!!" = "" := by decide
example : extrair_titulo_do_markdown "corpo\n# Meu Título \nresto" = some "Meu Título" := by decide
example : extrair_titulo_do_markdown "sem titulo" = none := by decide

/-! ## Theorems about the claims -/

/-- Cancel a common prefix and a common suffix of string concatenations. -/
theorem string_append_middle_inj (a b x y : String) :
    a ++ x ++ b = a ++ y ++ b ↔ x = y := by
  constructor
  · intro h
    have hd := congrArg String.data h
    simp only [String.data_append] at hd
    exact String.ext (List.append_cancel_left (List.append_cancel_right hd))
  · intro h
    rw [h]

/-- The ways one `processar_insight_para_pilula` execution can raise with
message `e`, in program order: the content load, the short-text generation,
the call-to-action generation, or a non-`ValueError` failure of imagen
client creation. (The title sub-step catches its own exceptions, and the
image-generation API call is caught inside `gerar_infografico`.) -/
def pillRaises (env : PillEnv) (e : String) : Prop :=
  env.load = .error e ∨
  (∃ c, env.load = .ok c ∧
    (env.shortGen = .error e ∨
      (∃ s, env.shortGen = .ok s ∧
        (env.ctaGen = .error e ∨
          (∃ q, env.ctaGen = .ok q ∧ env.imgClient = .otherErr e)))))

/-- The failed `PillResult` built by the boundary handler for message `e`. -/
def pillFailResult (arquivo e : String) : PillResult :=
  { arquivo_origem := arquivo, pill_id := "", title := "", short_text := ""
    call_to_action := none, infographic_filename := "", infographic_bytes := none
    success := false, error := some e }

/-- Whenever the body of `processar_insight_para_pilula` raises `e`, the
boundary handler turns it into the failed result carrying `e`. -/
theorem pill_boundary_of_raises (arquivo : String) (env : PillEnv) (e : String)
    (h : pillRaises env e) :
    processar_insight_para_pilula arquivo env = pillFailResult arquivo e := by
  rcases h with h1 | ⟨c, hc, h2 | ⟨s, hs, h3 | ⟨q, hq, hi⟩⟩⟩ <;>
    simp [processar_insight_para_pilula, pillBody, pillFailResult,
      gerar_texto_curto, gerar_call_to_action, gerar_infografico,
      Except.map, Except.bind, bind, *]

/-- The successful `PillResult` assembled from the generated pieces. -/
theorem pill_success_shape (arquivo : String) (env : PillEnv) (c s q : String)
    (ib : Option (List Nat))
    (hc : env.load = .ok c) (hs : env.shortGen = .ok s) (hq : env.ctaGen = .ok q)
    (hi : gerar_infografico env = .ok ib) :
    processar_insight_para_pilula arquivo env =
      { arquivo_origem := arquivo
        pill_id := "pilula_" ++ slugify (gerar_titulo_pilula c env)
        title := gerar_titulo_pilula c env
        short_text := pyStrip s
        call_to_action := some ⟨"question", pyStripQuotes (pyStrip q)⟩
        infographic_filename := "pilula_" ++ slugify (gerar_titulo_pilula c env) ++ ".png"
        infographic_bytes := ib
        success := true, error := none } := by
  simp [processar_insight_para_pilula, pillBody,
    gerar_texto_curto, gerar_call_to_action,
    Except.map, Except.bind, bind, pure, Except.pure, hc, hs, hq, hi]

/-- C6. `slugify` does not strip diacritics: Python's Unicode-aware `\w`
keeps accented letters, so on the function's own docstring example
`"Proteção contra Golpes"` the output keeps `ç` and `ã`, diverging from
the documented (and claimed) `"protecao_contra_golpes"`. The remaining
parts of the claim (whitespace/hyphen collapsing, lowercasing, underscore
trimming, totality, determinism, empty input) do hold of the code. -/
theorem C6_slugify_keeps_diacritics :
    slugify "Proteção contra Golpes" = "proteção_contra_golpes" ∧
    slugify "Proteção contra Golpes" ≠ "protecao_contra_golpes" ∧
    slugify "" = "" ∧
    slugify "a  b--c" = "a_b_c" := by decide

/-- C2 counterexample. On the specification's concrete scenario script
(headers `Scene 1`, `Scene 2`, `Cena 3`), `parse_scenes_from_roteiro`
returns one entry, not the claimed three-element sequence: the parser's
header pattern only recognizes `CENA`/`Cena`/`Cenário`. -/
theorem C2_scenario_counterexample :
    (parse_scenes_from_roteiro c2Script).length = 1 ∧
    (parse_scenes_from_roteiro c2Script).length ≠ 3 := by decide

/-- C2 amended. On the scenario script the parser returns exactly the
single entry for the one recognized header, and that entry is the string
`"Cena 3: "` followed by the stripped visual description — not a bare
(ordinal, text) pair. -/
theorem C2_scenario_actual :
    parse_scenes_from_roteiro c2Script = ["Cena 3: Sunrise over a city"] := by decide

/-- C1 counterexample, both pipelines. Script side: for an untitled
insight stored under a file name that is not already in slug form, the
backlog filter of `gerar_roteiros` derives `roteiro_{slugify(base)}.md`
while `processar_insight` saved `roteiro_{base}.md`, so the second run's
expected key misses the persisted key and the item is regenerated. Pill
side: even for a titled insight, the filter of `gerar_pilulas` expects
`pilula_{slugify(H1 title)}.json` while `salvar_pilula` persisted
`pilula_{slugify(generated pill title)}.json`, and the two titles (hence
keys) differ in general — here H1 `Golpes do PIX` against generated
title `Cuidado com golpes`. -/
theorem C1_key_mismatch :
    (roteiroEsperado "My-File.md" "conteudo de insight sem cabecalho" = "roteiro_my_file.md" ∧
      nomeRoteiroSalvo "My-File.md" "conteudo de insight sem cabecalho" = "roteiro_My-File.md" ∧
      roteiroEsperado "My-File.md" "conteudo de insight sem cabecalho" ≠
        nomeRoteiroSalvo "My-File.md" "conteudo de insight sem cabecalho") ∧
    (pilulaEsperada "golpes.md" "# Golpes do PIX\ncorpo" = "pilula_golpes_do_pix.json" ∧
      nomePilulaSalva (processar_insight_para_pilula "golpes.md"
          ⟨Except.ok "# Golpes do PIX\ncorpo", Except.ok "Cuidado com golpes",
            Except.ok "texto", Except.ok "pergunta",
            ImgClientOutcome.ok, ImgGenOutcome.noImages⟩) =
        "pilula_cuidado_com_golpes.json" ∧
      pilulaEsperada "golpes.md" "# Golpes do PIX\ncorpo" ≠
        nomePilulaSalva (processar_insight_para_pilula "golpes.md"
          ⟨Except.ok "# Golpes do PIX\ncorpo", Except.ok "Cuidado com golpes",
            Except.ok "texto", Except.ok "pergunta",
            ImgClientOutcome.ok, ImgGenOutcome.noImages⟩)) := by decide

/-- C1 amended, both pipelines. Script side: the expected key computed by
the second run's backlog filter equals the key under which the first run
persisted the script exactly when the insight has a truthy first H1 title
(both sides then use `roteiro_{slugify(title)}.md`), or, in the untitled
fallback, when the file-name base is a fixed point of `slugify` — as are
all names the scraper itself generates; otherwise the item is regenerated
on rerun. Pill side: a successful run persists under
`pilula_{slugify(generated pill title)}.json`, and that key equals the
filter's expected `pilula_{slugify(H1 title)}.json` (or the slugified
file-name base when untitled) exactly when the slug of the generated
title coincides with the filter's slug — a condition the code does
nothing to ensure, so titled pills are in general regenerated on rerun. -/
theorem C1_rerun_key_agreement :
    (∀ arquivo conteudo : String,
      roteiroEsperado arquivo conteudo = nomeRoteiroSalvo arquivo conteudo ↔
        ((truthyTitle conteudo).isSome ∨
          slugify (pyReplace arquivo ".md" "") = pyReplace arquivo ".md" "")) ∧
    (∀ (arquivo c s q : String) (env : PillEnv) (ib : Option (List Nat)),
      env.load = .ok c → env.shortGen = .ok s → env.ctaGen = .ok q →
      gerar_infografico env = .ok ib →
      nomePilulaSalva (processar_insight_para_pilula arquivo env) =
        "pilula_" ++ slugify (gerar_titulo_pilula c env) ++ ".json" ∧
      (pilulaEsperada arquivo c = nomePilulaSalva (processar_insight_para_pilula arquivo env) ↔
        (match truthyTitle c with
          | some t => slugify t = slugify (gerar_titulo_pilula c env)
          | none => slugify (pyReplace arquivo ".md" "") =
              slugify (gerar_titulo_pilula c env)))) := by
  constructor
  · intro arquivo conteudo
    unfold roteiroEsperado nomeRoteiroSalvo
    cases h : truthyTitle conteudo with
    | some t => simp
    | none =>
      simp only [Option.isSome_none, Bool.false_eq_true, false_or]
      exact string_append_middle_inj "roteiro_" ".md" _ _
  · intro arquivo c s q env ib hc hs hq hi
    rw [pill_success_shape arquivo env c s q ib hc hs hq hi]
    constructor
    · rfl
    · unfold pilulaEsperada nomePilulaSalva
      cases ht : truthyTitle c with
      | some t => exact string_append_middle_inj "pilula_" ".json" _ _
      | none => exact string_append_middle_inj "pilula_" ".json" _ _

/-- C1 witness: a slug-form file name whose script fallback keys agree,
and a concrete successful pill run whose persisted key is derived from
the generated title's slug. -/
theorem C1_rerun_key_agreement_witness :
    (roteiroEsperado "topico_golpes.md" "corpo" = nomeRoteiroSalvo "topico_golpes.md" "corpo") ∧
    nomePilulaSalva (processar_insight_para_pilula "golpes.md"
        ⟨Except.ok "# Golpes do PIX\ncorpo", Except.ok "Cuidado com golpes",
          Except.ok "texto", Except.ok "pergunta",
          ImgClientOutcome.ok, ImgGenOutcome.noImages⟩) =
      "pilula_" ++ slugify (gerar_titulo_pilula "# Golpes do PIX\ncorpo"
        ⟨Except.ok "# Golpes do PIX\ncorpo", Except.ok "Cuidado com golpes",
          Except.ok "texto", Except.ok "pergunta",
          ImgClientOutcome.ok, ImgGenOutcome.noImages⟩) ++ ".json" := by
  obtain ⟨pa, pb⟩ := C1_rerun_key_agreement
  exact ⟨(pa "topico_golpes.md" "corpo").mpr (Or.inr (by decide)),
    (pb "golpes.md" "# Golpes do PIX\ncorpo" "texto" "pergunta"
      ⟨Except.ok "# Golpes do PIX\ncorpo", Except.ok "Cuidado com golpes",
        Except.ok "texto", Except.ok "pergunta",
        ImgClientOutcome.ok, ImgGenOutcome.noImages⟩ none rfl rfl rfl rfl).1⟩

/-- C9 counterexample. `listar_roteiros_existentes` does not single out
the missing-bucket case: a `NoSuchBucket` failure falls into the same
generic handler as any other access failure and is logged, whereas
`listar_pilulas_existentes` recognizes it and stays silent. -/
theorem C9_roteiros_no_distinction :
    (listar_roteiros_existentes ListOutcome.noSuchBucket).2 ≠ [] ∧
    (listar_pilulas_existentes ListOutcome.noSuchBucket).2 = [] := by decide

/-- C9 amended. Both listers are total and fail open: on a missing bucket
and on any other access failure they return the empty set. Only
`listar_pilulas_existentes` distinguishes the missing bucket (treated
silently as "nothing exists yet", no log) from other failures (logged);
`listar_roteiros_existentes` logs the missing bucket through the same
generic handler it uses for every other failure. -/
theorem C9_listers_fail_open :
    listar_pilulas_existentes ListOutcome.noSuchBucket = ([], []) ∧
    (∀ m, (listar_pilulas_existentes (ListOutcome.otherErr m)).1 = [] ∧
      (listar_pilulas_existentes (ListOutcome.otherErr m)).2 ≠ []) ∧
    (listar_roteiros_existentes ListOutcome.noSuchBucket).1 = [] ∧
    (listar_roteiros_existentes ListOutcome.noSuchBucket).2 ≠ [] ∧
    (∀ m, (listar_roteiros_existentes (ListOutcome.otherErr m)).1 = [] ∧
      (listar_roteiros_existentes (ListOutcome.otherErr m)).2 ≠ []) := by
  refine ⟨rfl, fun m => ⟨rfl, ?_⟩, rfl, ?_, fun m => ⟨rfl, ?_⟩⟩ <;>
    simp [listar_pilulas_existentes, listar_roteiros_existentes]

/-- C10. A truthy title whose slug is empty (for instance a punctuation-only
title) yields the constant name `{pref}_{extensao}`, independent of the
ordinal, so all such titles collide on a single output key; for a truthy
title the slug path is always taken, and the ordinal fallback name is used
exactly when the title is `None` or the empty string. -/
theorem C10_empty_slug_collision (p ext : String) (i j : Nat) :
    (∀ t : String, t ≠ "" → slugify t = "" →
      gerar_nome_arquivo (some t) p i ext = p ++ "_" ++ ext ∧
      gerar_nome_arquivo (some t) p i ext = gerar_nome_arquivo (some t) p j ext) ∧
    (∀ t : String, t ≠ "" →
      gerar_nome_arquivo (some t) p i ext = p ++ "_" ++ slugify t ++ ext) ∧
    gerar_nome_arquivo none p i ext = p ++ "_" ++ toString i ++ ext ∧
    gerar_nome_arquivo (some "") p i ext = p ++ "_" ++ toString i ++ ext := by
  refine ⟨fun t ht hs => ⟨?_, ?_⟩, fun t ht => ?_, rfl, rfl⟩
  · simp [gerar_nome_arquivo, ht, hs, String.append_empty]
  · simp [gerar_nome_arquivo, ht, hs]
  · simp [gerar_nome_arquivo, ht]

/-- C10 witness: the punctuation-only title `"!!!"` slugs to the empty
string and collides on `pilula_.md` for any ordinal; `None` and `""`
titles take the ordinal fallback. -/
theorem C10_empty_slug_collision_witness :
    gerar_nome_arquivo (some "!!!") "pilula" 1 ".md" = "pilula_" ++ ".md" ∧
    gerar_nome_arquivo (some "!!!") "pilula" 1 ".md" =
      gerar_nome_arquivo (some "!!!") "pilula" 2 ".md" ∧
    gerar_nome_arquivo none "pilula" 1 ".md" = "pilula_" ++ "1" ++ ".md" ∧
    gerar_nome_arquivo (some "") "pilula" 1 ".md" = "pilula_" ++ "1" ++ ".md" := by
  obtain ⟨h1, h2, h3, h4⟩ := C10_empty_slug_collision "pilula" ".md" 1 2
  exact ⟨(h1 "!!!" (by decide) (by decide)).1, (h1 "!!!" (by decide) (by decide)).2, h3, h4⟩

/-- C3 counterexample. A failure of the title text sub-step does not abort
the item: `gerar_titulo_pilula` catches its own exception and falls back
to the insight's H1 (or a constant), and processing continues to a
successful result — contradicting "a failure in any text sub-step aborts
the whole item". -/
theorem C3_title_failure_not_fatal :
    (processar_insight_para_pilula "a.md"
        ⟨Except.ok "conteudo sem cabecalho", Except.error "Gemini indisponivel",
          Except.ok "Texto curto.", Except.ok "Pergunta?",
          ImgClientOutcome.ok, ImgGenOutcome.ok [1]⟩).success = true ∧
    (processar_insight_para_pilula "a.md"
        ⟨Except.ok "conteudo sem cabecalho", Except.error "Gemini indisponivel",
          Except.ok "Texto curto.", Except.ok "Pergunta?",
          ImgClientOutcome.ok, ImgGenOutcome.ok [1]⟩).title = "Dica de Seguranca" := by
  decide

/-- C3 amended, sub-step error policy of `processar_insight_para_pilula`:
(1) when the text sub-steps succeed and the infographic step fails or
produces no image (returning `None` without raising), the result still
carries the generated title, short text and call-to-action with
`success = true`;
(2) when the short-text sub-step raises, the item fails with that message
and the result does not depend on the outcomes of the later sub-steps;
(3) when the call-to-action sub-step raises, likewise, independently of
the image outcomes;
(4) but a failing title text-generation call does not abort the item: the
fallback title is used and processing continues successfully. -/
theorem C3_substep_policy (arquivo : String) :
    (∀ (env : PillEnv) (c s q : String),
      env.load = .ok c → env.shortGen = .ok s → env.ctaGen = .ok q →
      gerar_infografico env = .ok none →
      (processar_insight_para_pilula arquivo env).success = true ∧
      (processar_insight_para_pilula arquivo env).title = gerar_titulo_pilula c env ∧
      (processar_insight_para_pilula arquivo env).short_text = pyStrip s ∧
      (processar_insight_para_pilula arquivo env).call_to_action =
        some ⟨"question", pyStripQuotes (pyStrip q)⟩ ∧
      (processar_insight_para_pilula arquivo env).infographic_bytes = none) ∧
    (∀ (env : PillEnv) (c e : String),
      env.load = .ok c → env.shortGen = .error e →
      (processar_insight_para_pilula arquivo env).success = false ∧
      (processar_insight_para_pilula arquivo env).error = some e ∧
      (∀ env2 : PillEnv, env2.load = env.load → env2.titleGen = env.titleGen →
        env2.shortGen = env.shortGen →
        processar_insight_para_pilula arquivo env2 =
          processar_insight_para_pilula arquivo env)) ∧
    (∀ (env : PillEnv) (c s e : String),
      env.load = .ok c → env.shortGen = .ok s → env.ctaGen = .error e →
      (processar_insight_para_pilula arquivo env).success = false ∧
      (processar_insight_para_pilula arquivo env).error = some e ∧
      (∀ env2 : PillEnv, env2.load = env.load → env2.titleGen = env.titleGen →
        env2.shortGen = env.shortGen → env2.ctaGen = env.ctaGen →
        processar_insight_para_pilula arquivo env2 =
          processar_insight_para_pilula arquivo env)) ∧
    (∀ (env : PillEnv) (c s q e : String) (ib : Option (List Nat)),
      env.load = .ok c → env.titleGen = .error e → env.shortGen = .ok s →
      env.ctaGen = .ok q → gerar_infografico env = .ok ib →
      (processar_insight_para_pilula arquivo env).success = true ∧
      (processar_insight_para_pilula arquivo env).title =
        (match extrair_titulo_do_markdown c with
          | some t => if t = "" then "Dica de Seguranca" else t
          | none => "Dica de Seguranca")) := by
  refine ⟨fun env c s q hc hs hq hi => ?_, fun env c e hc he => ?_,
    fun env c s e hc hs he => ?_, fun env c s q e ib hc ht hs hq hi => ?_⟩
  · rw [pill_success_shape arquivo env c s q none hc hs hq hi]
    exact ⟨rfl, rfl, rfl, rfl, rfl⟩
  · have hr : pillRaises env e := Or.inr ⟨c, hc, Or.inl he⟩
    rw [pill_boundary_of_raises arquivo env e hr]
    refine ⟨rfl, rfl, fun env2 h2l h2t h2s => ?_⟩
    have hr2 : pillRaises env2 e := Or.inr ⟨c, h2l.trans hc, Or.inl (h2s.trans he)⟩
    rw [pill_boundary_of_raises arquivo env2 e hr2]
  · have hr : pillRaises env e := Or.inr ⟨c, hc, Or.inr ⟨s, hs, Or.inl he⟩⟩
    rw [pill_boundary_of_raises arquivo env e hr]
    refine ⟨rfl, rfl, fun env2 h2l h2t h2s h2q => ?_⟩
    have hr2 : pillRaises env2 e :=
      Or.inr ⟨c, h2l.trans hc, Or.inr ⟨s, h2s.trans hs, Or.inl (h2q.trans he)⟩⟩
    rw [pill_boundary_of_raises arquivo env2 e hr2]
  · rw [pill_success_shape arquivo env c s q ib hc hs hq hi]
    exact ⟨rfl, by simp [gerar_titulo_pilula, ht]⟩

/-- C3 witness: concrete environments for the four parts of the sub-step
policy (image step yielding no image; short-text raise; call-to-action
raise; title-generation raise with fallback). -/
theorem C3_substep_policy_witness :
    ((processar_insight_para_pilula "a.md"
        ⟨.ok "c", .ok "T", .ok "curto", .ok "q?", .ok, .noImages⟩).success = true ∧
      (processar_insight_para_pilula "a.md"
        ⟨.ok "c", .ok "T", .ok "curto", .ok "q?", .ok, .noImages⟩).infographic_bytes = none) ∧
    (processar_insight_para_pilula "a.md"
        ⟨.ok "c", .ok "T", .error "curto falhou", .ok "q?", .ok, .noImages⟩).error =
      some "curto falhou" ∧
    (processar_insight_para_pilula "a.md"
        ⟨.ok "c", .ok "T", .ok "curto", .error "cta falhou", .ok, .noImages⟩).error =
      some "cta falhou" ∧
    (processar_insight_para_pilula "a.md"
        ⟨.ok "c", .error "titulo falhou", .ok "curto", .ok "q?", .ok, .noImages⟩).success =
      true := by
  obtain ⟨p1, p2, p3, p4⟩ := C3_substep_policy "a.md"
  refine ⟨?_, ?_, ?_, ?_⟩
  · obtain ⟨a, _, _, _, b⟩ :=
      p1 ⟨.ok "c", .ok "T", .ok "curto", .ok "q?", .ok, .noImages⟩ "c" "curto" "q?"
        rfl rfl rfl rfl
    exact ⟨a, b⟩
  · exact (p2 ⟨.ok "c", .ok "T", .error "curto falhou", .ok "q?", .ok, .noImages⟩
      "c" "curto falhou" rfl rfl).2.1
  · exact (p3 ⟨.ok "c", .ok "T", .ok "curto", .error "cta falhou", .ok, .noImages⟩
      "c" "curto" "cta falhou" rfl rfl rfl).2.1
  · exact (p4 ⟨.ok "c", .error "titulo falhou", .ok "curto", .ok "q?", .ok, .noImages⟩
      "c" "curto" "q?" "titulo falhou" none rfl rfl rfl rfl rfl).1

/-- C5. Per-item processor boundary for the three variants: each is a
total function of its input and of the capability-call outcomes (it
returns a result for every environment, never raising to the caller), and
whenever a fallible sub-call raises with message `e`, the returned result
has `success = false` and `error` set to that captured message. -/
theorem C5_processor_boundary :
    (∀ (url : String) (i : Nat) (env : UrlEnv) (e : String),
      env.gen = .error e →
      (processar_url url i env).success = false ∧
      (processar_url url i env).error = some e) ∧
    (∀ (arquivo : String) (env : RoteiroEnv) (e : String),
      (env.load = .error e ∨ (∃ c, env.load = .ok c ∧ env.gen = .error e)) →
      (processar_insight arquivo env).success = false ∧
      (processar_insight arquivo env).error = some e) ∧
    (∀ (arquivo : String) (env : PillEnv) (e : String),
      pillRaises env e →
      (processar_insight_para_pilula arquivo env).success = false ∧
      (processar_insight_para_pilula arquivo env).error = some e) := by
  refine ⟨fun url i env e hg => ?_, fun arquivo env e h => ?_, fun arquivo env e h => ?_⟩
  · simp [processar_url, hg]
  · rcases h with h1 | ⟨c, hc, h2⟩ <;>
      simp [processar_insight, Except.bind, bind, pure, Except.pure, *]
  · rw [pill_boundary_of_raises arquivo env e h]
    exact ⟨rfl, rfl⟩

/-- C5 witness: a raising text-generation call in each of the three
variants yields a failed result carrying the message. -/
theorem C5_processor_boundary_witness :
    ((processar_url "http://x" 3 ⟨"texto", .error "quota"⟩).success = false ∧
      (processar_url "http://x" 3 ⟨"texto", .error "quota"⟩).error = some "quota") ∧
    ((processar_insight "a.md" ⟨.ok "c", .error "falha gen"⟩).success = false ∧
      (processar_insight "a.md" ⟨.ok "c", .error "falha gen"⟩).error = some "falha gen") ∧
    ((processar_insight_para_pilula "a.md"
        ⟨.error "sem conteudo", .ok "T", .ok "s", .ok "q", .ok, .noImages⟩).success = false ∧
      (processar_insight_para_pilula "a.md"
        ⟨.error "sem conteudo", .ok "T", .ok "s", .ok "q", .ok, .noImages⟩).error =
        some "sem conteudo") := by
  obtain ⟨p1, p2, p3⟩ := C5_processor_boundary
  exact ⟨p1 "http://x" 3 ⟨"texto", .error "quota"⟩ "quota" rfl,
    p2 "a.md" ⟨.ok "c", .error "falha gen"⟩ "falha gen" (Or.inr ⟨"c", rfl, rfl⟩),
    p3 "a.md" ⟨.error "sem conteudo", .ok "T", .ok "s", .ok "q", .ok, .noImages⟩
      "sem conteudo" (Or.inl rfl)⟩

/-- C7 counterexample. The code never checks the generated short text for
emptiness: when the short-text generation call returns the empty string,
`processar_insight_para_pilula` still returns `success = true` with an
empty `short_text`, contradicting the claimed invariant. -/
theorem C7_success_with_empty_short_text :
    (processar_insight_para_pilula "a.md"
        ⟨.ok "conteudo", .ok "Titulo", .ok "", .ok "Pergunta?", .ok, .ok [0]⟩).success
      = true ∧
    (processar_insight_para_pilula "a.md"
        ⟨.ok "conteudo", .ok "Titulo", .ok "", .ok "Pergunta?", .ok, .ok [0]⟩).short_text
      = "" := by decide

/-- C7 amended, `PillResult` invariant: on any raising execution the result
has every generated-content field empty (`pill_id`, `title`, `short_text`,
`infographic_filename` empty strings; `call_to_action` the empty dict;
no infographic bytes) and `error` set to exactly the captured message (so
it is non-empty whenever the exception message is); on a successful
execution, `short_text` and the call-to-action text are the stripped
generator outputs, hence non-empty provided those outputs are non-empty
after stripping — which the code itself does not enforce. -/
theorem C7_pillresult_invariant (arquivo : String) :
    (∀ (env : PillEnv) (e : String), pillRaises env e →
      processar_insight_para_pilula arquivo env = pillFailResult arquivo e ∧
      (processar_insight_para_pilula arquivo env).pill_id = "" ∧
      (processar_insight_para_pilula arquivo env).title = "" ∧
      (processar_insight_para_pilula arquivo env).short_text = "" ∧
      (processar_insight_para_pilula arquivo env).call_to_action = none ∧
      (processar_insight_para_pilula arquivo env).infographic_filename = "" ∧
      (processar_insight_para_pilula arquivo env).infographic_bytes = none ∧
      (processar_insight_para_pilula arquivo env).error = some e) ∧
    (∀ (env : PillEnv) (c s q : String) (ib : Option (List Nat)),
      env.load = .ok c → env.shortGen = .ok s → env.ctaGen = .ok q →
      gerar_infografico env = .ok ib →
      pyStrip s ≠ "" → pyStripQuotes (pyStrip q) ≠ "" →
      (processar_insight_para_pilula arquivo env).success = true ∧
      (processar_insight_para_pilula arquivo env).short_text ≠ "" ∧
      ∃ cta, (processar_insight_para_pilula arquivo env).call_to_action = some cta ∧
        cta.text ≠ "") := by
  refine ⟨fun env e h => ?_, fun env c s q ib hc hs hq hi hns hnq => ?_⟩
  · have heq := pill_boundary_of_raises arquivo env e h
    rw [heq]
    exact ⟨rfl, rfl, rfl, rfl, rfl, rfl, rfl, rfl⟩
  · rw [pill_success_shape arquivo env c s q ib hc hs hq hi]
    exact ⟨rfl, hns, ⟨"question", pyStripQuotes (pyStrip q)⟩, rfl, hnq⟩

/-- C7 witness: a concrete raising execution with all fields empty and the
message captured, and a concrete successful execution with non-empty
short text and call-to-action text. -/
theorem C7_pillresult_invariant_witness :
    (processar_insight_para_pilula "a.md"
        ⟨.error "boom", .ok "T", .ok "s", .ok "q", .ok, .noImages⟩ =
      pillFailResult "a.md" "boom") ∧
    (processar_insight_para_pilula "a.md"
        ⟨.ok "c", .ok "T", .ok "Texto curto.", .ok "Pergunta?", .ok, .noImages⟩).short_text
      ≠ "" := by
  obtain ⟨pa, pb⟩ := C7_pillresult_invariant "a.md"
  refine ⟨(pa ⟨.error "boom", .ok "T", .ok "s", .ok "q", .ok, .noImages⟩ "boom"
    (Or.inl rfl)).1, ?_⟩
  exact (pb ⟨.ok "c", .ok "T", .ok "Texto curto.", .ok "Pergunta?", .ok, .noImages⟩
    "c" "Texto curto." "Pergunta?" none rfl rfl rfl rfl (by decide) (by decide)).2.1

/-- When every remaining extension request succeeds, the loop performs all
of them and finishes with the clip of the last request. -/
theorem veoExtLoop_all_success (gen : Nat → ReqOutcome) :
    ∀ r i, (∀ j, i + 1 ≤ j → j ≤ i + r → gen j = ReqOutcome.success) →
      veoExtLoop gen r i i = (r, i + r, LoopExit.finished) := by
  intro r
  induction r with
  | zero => intro i _; simp [veoExtLoop]
  | succ n ih =>
    intro i h
    have hg : gen (i + 1) = ReqOutcome.success := h (i + 1) le_rfl (by omega)
    have hrec := ih (i + 1) (fun j hj1 hj2 => h j (by omega) (by omega))
    have harith : i + (n + 1) = (i + 1) + n := by omega
    rw [harith]
    simp [veoExtLoop, hg, hrec]

/-- When requests `i+1 .. i+t-1` succeed and request `i+t` ends in an
operation error, the loop breaks after submitting `t` requests, retaining
the clip of request `i + t - 1`. -/
theorem veoExtLoop_fail_at (gen : Nat → ReqOutcome) :
    ∀ t r i, 1 ≤ t → t ≤ r →
      (∀ j, i + 1 ≤ j → j < i + t → gen j = ReqOutcome.success) →
      gen (i + t) = ReqOutcome.opError →
      veoExtLoop gen r i i = (t, i + t - 1, LoopExit.broke) := by
  intro t
  induction t with
  | zero => intro r i h1 _ _ _; omega
  | succ n ih =>
    intro r i _ hle hsucc hfail
    obtain ⟨r0, rfl⟩ : ∃ r0, r = r0 + 1 := ⟨r - 1, by omega⟩
    rcases Nat.eq_zero_or_pos n with hn | hn
    · subst hn
      have hf : gen (i + 1) = ReqOutcome.opError := by simpa using hfail
      simp [veoExtLoop, hf]
    · have hg : gen (i + 1) = ReqOutcome.success := hsucc (i + 1) le_rfl (by omega)
      have hf : gen (i + 1 + n) = ReqOutcome.opError := by
        have e : i + 1 + n = i + (n + 1) := by omega
        rw [e]
        exact hfail
      have hrec := ih r0 (i + 1) hn (by omega)
        (fun j hj1 hj2 => hsucc j (by omega) (by omega)) hf
      have e2 : i + (n + 1) - 1 = i + 1 + n - 1 := by omega
      rw [e2]
      simp [veoExtLoop, hg, hrec]

/-- C4. Video extension state machine, in the extension-capable (AI
Studio) backend mode: with `extension_count = k` and `k + 1` parsed
scenes, if every request succeeds the machine submits exactly `k`
extension requests after the initial one, terminates `DONE`, and downloads
the clip of the last extension; and if extension request `i ≤ k` ends in
an operation error while requests `0 .. i-1` succeeded, it terminates
`FAILED` after `i` extension submissions, retaining — and downloading —
the clip produced by the last successful step `i - 1`. -/
theorem C4_extension_state_machine (k : Nat) (scenes : List String)
    (bucket : String) (hlen : scenes.length = k + 1) :
    (∀ env : VeoEnv, env.clientOk = true →
      (∀ j, j ≤ k → env.gen j = ReqOutcome.success) →
      gerar_video_veo ⟨false, bucket, k⟩ scenes env =
        ⟨k, VeoState.doneState, some k, env.download k⟩) ∧
    (∀ (env : VeoEnv) (i : Nat), env.clientOk = true → 1 ≤ i → i ≤ k →
      (∀ j, j < i → env.gen j = ReqOutcome.success) →
      env.gen i = ReqOutcome.opError →
      gerar_video_veo ⟨false, bucket, k⟩ scenes env =
        ⟨i, VeoState.failedState, some (i - 1), env.download (i - 1)⟩) := by
  have hdrop : (scenes.drop 1).length = k := by simp [hlen]
  have htail : k > 0 → scenes.tail ≠ [] := by
    intro hk hnil
    rw [List.drop_one, hnil] at hdrop
    simp at hdrop
    omega
  have hmin : k ⊓ (scenes.length - 1) = k := by
    rw [hlen]
    simp
  constructor
  · intro env hcl hall
    have h0 : env.gen 0 = ReqOutcome.success := hall 0 (Nat.zero_le k)
    have hloop := veoExtLoop_all_success env.gen k 0
      (fun j hj1 hj2 => hall j (by omega))
    rw [Nat.zero_add] at hloop
    rcases Nat.eq_zero_or_pos k with hk | hk
    · subst hk
      have hlen1 : ¬(scenes.length > 1) := by omega
      simp [gerar_video_veo, hcl, hlen1, h0, hloop]
    · have hgt : scenes.length > 1 := by omega
      simp [gerar_video_veo, hcl, hgt, htail hk, hmin, h0, hloop]
  · intro env i hcl hi1 hik hpre hfail
    have h0 : env.gen 0 = ReqOutcome.success := hpre 0 (by omega)
    have hloop := veoExtLoop_fail_at env.gen i k 0 hi1 hik
      (fun j hj1 hj2 => hpre j (by omega)) (by simpa using hfail)
    rw [Nat.zero_add] at hloop
    have hgt : scenes.length > 1 := by omega
    simp [gerar_video_veo, hcl, hgt, htail (by omega), hmin, h0, hloop]

/-- C4 witness: with `k = 2` and three scenes, an all-success run submits
two extensions, ends `DONE` and downloads clip 2; a run whose first
extension request errors ends `FAILED` retaining and downloading the
initial clip 0. -/
theorem C4_extension_state_machine_witness :
    gerar_video_veo ⟨false, "", 2⟩ ["a", "b", "c"]
        ⟨true, fun _ => ReqOutcome.success, fun j => some [j]⟩ =
      ⟨2, VeoState.doneState, some 2, some [2]⟩ ∧
    gerar_video_veo ⟨false, "", 2⟩ ["a", "b", "c"]
        ⟨true, fun j => if j = 0 then ReqOutcome.success else ReqOutcome.opError,
          fun j => some [j]⟩ =
      ⟨1, VeoState.failedState, some 0, some [0]⟩ := by
  obtain ⟨p1, p2⟩ := C4_extension_state_machine 2 ["a", "b", "c"] "" (by decide)
  constructor
  · exact p1 ⟨true, fun _ => ReqOutcome.success, fun j => some [j]⟩ rfl (fun j _ => rfl)
  · exact p2 ⟨true, fun j => if j = 0 then ReqOutcome.success else ReqOutcome.opError,
      fun j => some [j]⟩ 1 rfl (by omega) (by omega)
      (fun j hj => by
        have : j = 0 := by omega
        subst this
        rfl)
      rfl

/-- C8. Fan-out/fan-in accounting of `gerar_pilulas`: the sequential
persistence phase attempts `salvar_pilula` on every one of the `N`
collected results (failed ones are skipped inside the save step), and —
provided the storage puts themselves succeed — the run-end summary counts
exactly `N - M` successes, where `M` is the number of failed results
produced by the parallel phase. -/
theorem C8_fanin_accounting (resultados : List PillResult) (env : SaveEnv)
    (hup : ∀ key, env.uploadJson key = true) :
    (savePhase resultados env).length = resultados.length ∧
    (pilulas_geradas resultados env).length =
      resultados.length - (resultados.filter (fun r => !r.success)).length := by
  constructor
  · simp [savePhase]
  · induction resultados with
    | nil => simp [pilulas_geradas, savePhase]
    | cons r rs ih =>
      have hM : (rs.filter (fun r => !r.success)).length ≤ rs.length :=
        List.length_filter_le _ _
      by_cases h : r.success = true
      · have hs : salvar_pilula r env = true := by
          simp [salvar_pilula, h, hup]
        simp [pilulas_geradas, savePhase, List.filter_cons, hs, h] at ih ⊢
        omega
      · have hb : r.success = false := by
          cases hc : r.success
          · rfl
          · exact absurd hc h
        have hs : salvar_pilula r env = false := by
          simp [salvar_pilula, hb]
        simp [pilulas_geradas, savePhase, List.filter_cons, hs, hb] at ih ⊢
        omega

/-- C8 witness: a backlog of `N = 2` collected results with `M = 1`
failure — persistence is attempted on both and the summary counts
`2 - 1 = 1` success. -/
theorem C8_fanin_accounting_witness :
    (savePhase
        [⟨"a.md", "pilula_x", "X", "tx", some ⟨"question", "q"⟩, "pilula_x.png",
            none, true, none⟩,
          ⟨"b.md", "", "", "", none, "", none, false, some "boom"⟩]
        ⟨true, fun _ => true⟩).length = 2 ∧
    (pilulas_geradas
        [⟨"a.md", "pilula_x", "X", "tx", some ⟨"question", "q"⟩, "pilula_x.png",
            none, true, none⟩,
          ⟨"b.md", "", "", "", none, "", none, false, some "boom"⟩]
        ⟨true, fun _ => true⟩).length = 2 - 1 := by
  have h := C8_fanin_accounting
    [⟨"a.md", "pilula_x", "X", "tx", some ⟨"question", "q"⟩, "pilula_x.png",
        none, true, none⟩,
      ⟨"b.md", "", "", "", none, "", none, false, some "boom"⟩]
    ⟨true, fun _ => true⟩ (fun _ => rfl)
  exact ⟨h.1, h.2⟩

end ECS
